import Mathlib

/-!
Shallow embedding of the rust-indexer synchronization engine
(src/config.rs, src/schema.rs, src/indexer.rs, src/lib.rs) and proofs
about its checkpoint seeding, startup validation, configuration loading,
log filtering, decoding and persistence behaviour.

Machine integers are modelled as Nat (for u64) and Int (for i64/i32),
with explicit two's-complement wrapping where Rust performs an as-cast
or (release-mode) wrapping arithmetic.
-/

namespace RustIndexer

/-- Two's-complement reinterpretation of the low 64 bits of a u64 as an
i64, modelling the Rust as-cast u64 -> i64 in start_from. -/
def u64AsI64 (x : Nat) : Int :=
  if x % 2 ^ 64 < 2 ^ 63 then ((x % 2 ^ 64 : Nat) : Int)
  else ((x % 2 ^ 64 : Nat) : Int) - 2 ^ 64

/-- Two's-complement reinterpretation of the low 32 bits of a u64 as an
i32, modelling the Rust as-cast u64 -> i32 applied to the chain id in
start_from (src/indexer.rs line 121). -/
def u64AsI32 (x : Nat) : Int :=
  if x % 2 ^ 32 < 2 ^ 31 then ((x % 2 ^ 32 : Nat) : Int)
  else ((x % 2 ^ 32 : Nat) : Int) - 2 ^ 32

/-- Wrap an Int into the i64 range, modelling release-mode wrapping of
i64 arithmetic (the subtraction start as i64 - 1 in start_from). -/
def i64Wrap (x : Int) : Int :=
  (x + 2 ^ 63) % 2 ^ 64 - 2 ^ 63

/-- The sync table of src/schema.rs: one row per chain_id (an SQLite
Integer, i.e. i32) holding block_number (a BigInt, i.e. i64).  Modelled
as a map from the chain_id column to the stored block_number. -/
def SyncTable : Type := Int → Option Int

/-- A sync table with no rows. -/
def emptySync : SyncTable := fun _ => none

/-- Diesel insert ... on_conflict(chain_id).do_update().set(block_number)
on the sync table: insert the row if the key is absent, otherwise
overwrite block_number — an unconditional upsert. -/
def syncUpsert (t : SyncTable) (cid v : Int) : SyncTable :=
  fun k => if k = cid then some v else t k

/-- The error enum IndexerError of src/indexer.rs. -/
inductive IndexerError where
  | Rpc (msg : String)
  | Database (msg : String)
  | ChainIdMismatch (rpc expected : Nat)
  | Runtime (msg : String)
  | Parse (msg : String)
deriving DecidableEq

/-- Embedding of start_from (src/indexer.rs lines 113-130): computes
start as i64 - 1 and performs an unconditional upsert of
(chain_id as i32, start - 1) into the sync table, then returns Ok(true).
The database connection is modelled as the SyncTable state; Diesel
execute errors are not modelled (the function is embedded on the path
where the statement succeeds). -/
def start_from (conn : SyncTable) (chain_id : Nat) (start : Nat) : SyncTable × Bool :=
  let start_block_value := i64Wrap (u64AsI64 start - 1)
  (syncUpsert conn (u64AsI32 chain_id) start_block_value, true)

/-- The RPC provider as seen by the engine: the LogsProvider trait of
src/indexer.rs.  chainIdCalls counts how many times chain_id() has been
invoked; chainIdResult and latestBlockResult are the responses the
remote endpoint would give. -/
structure ProviderState where
  chainIdCalls : Nat
  chainIdResult : Except IndexerError Nat
  latestBlockResult : Except IndexerError Nat

/-- One call of LogsProvider::chain_id on the provider: returns the
endpoint's response and records the call. -/
def provider_chain_id (p : ProviderState) : ProviderState × Except IndexerError Nat :=
  ({ p with chainIdCalls := p.chainIdCalls + 1 }, p.chainIdResult)

/-- Embedding of event_loop (src/indexer.rs lines 134-148): the body is
a stub consisting only of TODO comments and returns Ok(()), touching
neither the database nor the provider. -/
def event_loop (conn : SyncTable) (_chain_id : Nat) (_provider : ProviderState)
    (_range_size : Nat) : SyncTable × Except IndexerError Unit :=
  (conn, Except.ok ())

/-- The Config struct of src/config.rs. -/
structure Config where
  rpc_url : String
  start_block : Nat
  db_path : String
  chain_id : Nat
deriving DecidableEq

/-- Value of a decimal digit character, none for any other character. -/
def decDigit (c : Char) : Option Nat :=
  if '0' ≤ c ∧ c ≤ '9' then some (c.toNat - '0'.toNat) else none

/-- Fold a list of characters as a base-10 numeral, failing on the first
non-digit. -/
def parseDecDigits (cs : List Char) : Option Nat :=
  cs.foldl
    (fun acc c =>
      match acc, decDigit c with
      | some a, some d => some (a * 10 + d)
      | _, _ => none)
    (some 0)

/-- Rust str::parse::<u64>: an optional leading plus sign, then one or
more decimal digits, rejecting the empty numeral and values that do not
fit in 64 bits. -/
def parseU64 (s : String) : Option Nat :=
  let cs :=
    match s.data with
    | '+' :: rest => rest
    | l => l
  if cs.isEmpty then none
  else
    match parseDecDigits cs with
    | some n => if n < 2 ^ 64 then some n else none
    | none => none

/-- Embedding of Config::from_env (src/config.rs lines 8-22): the
process environment is a partial map from variable names to values.
RPC_URL defaults to the llamarpc endpoint, START_BLOCK to 0, DB_PATH to
indexer.db and CHAIN_ID to 11155111; a present but unparsable
START_BLOCK or CHAIN_ID is an error (START_BLOCK is parsed first, as in
the source's field order). -/
def from_env (env : String → Option String) : Except String Config :=
  let rpc_url := (env ("RPC_URL")).getD ("https://eth.llamarpc.com")
  match parseU64 ((env ("START_BLOCK")).getD ("0")) with
  | none => Except.error ("invalid START_BLOCK")
  | some start_block =>
    let db_path := (env ("DB_PATH")).getD ("indexer.db")
    match parseU64 ((env ("CHAIN_ID")).getD ("11155111")) with
    | none => Except.error ("invalid CHAIN_ID")
    | some chain_id => Except.ok ⟨rpc_url, start_block, db_path, chain_id⟩

/-- An environment with no variables set. -/
def emptyEnv : String → Option String := fun _ => none

/-- An environment that sets only RPC_URL. -/
def envRpcOnly : String → Option String :=
  fun k => if k = "RPC_URL" then some ("http://localhost:8545") else none

/-- Errors surfaced by run (src/lib.rs), which returns anyhow errors:
the chain-id fetch failure, the chain-id mismatch (carrying the RPC
value and the configured value, in that order), or a propagated indexer
error. -/
inductive RunError where
  | chainIdFetch (e : IndexerError)
  | chainIdMismatch (rpc expected : Nat)
  | indexerFailed (e : IndexerError)

/-- Embedding of run (src/lib.rs lines 38-89) after the database
connection and migrations: it calls provider.chain_id() once, compares
the response with config.chain_id and aborts on mismatch; otherwise it
seeds the checkpoint with start_from(config.chain_id, config.start_block)
and enters event_loop with range size 100.  Returns the provider state,
the database state and the result. -/
def run (cfg : Config) (p : ProviderState) (conn : SyncTable) :
    ProviderState × SyncTable × Except RunError Unit :=
  let pr := provider_chain_id p
  match pr.2 with
  | Except.error e => (pr.1, conn, Except.error (RunError.chainIdFetch e))
  | Except.ok rpc_chain_id =>
    if rpc_chain_id ≠ cfg.chain_id then
      (pr.1, conn, Except.error (RunError.chainIdMismatch rpc_chain_id cfg.chain_id))
    else
      let seeded := start_from conn cfg.chain_id cfg.start_block
      let looped := event_loop seeded.1 cfg.chain_id pr.1 100
      match looped.2 with
      | Except.ok _ => (pr.1, looped.1, Except.ok ())
      | Except.error e => (pr.1, looped.1, Except.error (RunError.indexerFailed e))

/-- The keccak256 hash of the Transfer event signature, exactly the
string constant TRANSFER_EVENT_SIGNATURE of src/indexer.rs lines 30-31. -/
def TRANSFER_EVENT_SIGNATURE : String :=
  "0xddf252ad1be2c89b69c2b068fc378daa952ba7f163c4a11628f55a4df523b3ef"

/-- Value of a hexadecimal digit character, none for any other
character. -/
def hexDigit (c : Char) : Option Nat :=
  if '0' ≤ c ∧ c ≤ '9' then some (c.toNat - '0'.toNat)
  else if 'a' ≤ c ∧ c ≤ 'f' then some (c.toNat - 'a'.toNat + 10)
  else if 'A' ≤ c ∧ c ≤ 'F' then some (c.toNat - 'A'.toNat + 10)
  else none

/-- Parse a 0x-prefixed 64-hex-digit string into the 256-bit word it
denotes, modelling the FixedBytes<32> parse of the signature constant in
AlloyProvider::logs. -/
def parseHex32 (s : String) : Option Nat :=
  match s.data with
  | '0' :: 'x' :: rest =>
    if rest.length = 64 then
      rest.foldl
        (fun acc c =>
          match acc, hexDigit c with
          | some a, some d => some (a * 16 + d)
          | _, _ => none)
        (some 0)
    else none
  | _ => none

/-- The numeric value of the Transfer event signature hash. -/
def transferSigNat : Nat :=
  0xddf252ad1be2c89b69c2b068fc378daa952ba7f163c4a11628f55a4df523b3ef

/-- The eth_getLogs filter built by AlloyProvider::logs: inclusive block
bounds, an emitting-address constraint and a topic0 (event signature)
constraint.  Addresses and hashes are modelled as Nat. -/
structure LogFilter where
  from_block : Nat
  to_block : Nat
  address : Nat
  topic0 : Nat
deriving DecidableEq

/-- A raw log as returned by the RPC endpoint (the alloy Log fields the
indexer consumes): emitting address, topics, data bytes and the
envelope fields block_number, tx_hash and log_index. -/
structure RawLog where
  address : Nat
  topics : List Nat
  data : List Nat
  block_number : Nat
  tx_hash : Nat
  log_index : Nat
deriving DecidableEq

/-- Modelled from the spec: the selection semantics of an eth_getLogs
query, which is performed by the external RPC endpoint — it returns the
logs "matching the fixed Transfer event signature (topic0) and the
configured token contract address, inclusive range".  A log matches when
its first topic equals the filter's topic0, its emitting address equals
the filter's address, and its block number lies in
[from_block, to_block]. -/
def filterMatches (f : LogFilter) (l : RawLog) : Bool :=
  decide (l.topics.head? = some f.topic0) && decide (l.address = f.address) &&
    decide (f.from_block ≤ l.block_number) && decide (l.block_number ≤ f.to_block)

/-- Embedding of the pure content of AlloyProvider::logs
(src/indexer.rs lines 82-108): parse TRANSFER_EVENT_SIGNATURE (a parse
failure would be IndexerError::Parse) and build the filter with
from_block = start_block, to_block = end_block, address = the provider's
token_address and event_signature = the parsed topic.  The network call
itself is external. -/
def logs_filter (token_address : Nat) (start_block end_block : Nat) :
    Except IndexerError LogFilter :=
  match parseHex32 TRANSFER_EVENT_SIGNATURE with
  | none => Except.error (IndexerError.Parse ("Failed to parse transfer signature"))
  | some transfer_topic =>
    Except.ok ⟨start_block, end_block, token_address, transfer_topic⟩

/-- The TransferEvent struct of src/types.rs: u64 fields, B256 tx_hash,
20-byte addresses and a U256 value, all modelled as Nat. -/
structure TransferEvent where
  chain_id : Nat
  block_number : Nat
  tx_hash : Nat
  token_address : Nat
  from_addr : Nat
  to_addr : Nat
  value : Nat
  log_index : Nat
deriving DecidableEq

/-- A row of the transfers table of src/schema.rs (lines 10-21): SQLite
Integer chain_id, BigInt block_number and log_index, Text hash, address
and value columns. -/
structure TransferRow where
  chain_id : Int
  block_number : Int
  tx_hash : String
  token_address : String
  from_addr : String
  to_addr : String
  value : String
  log_index : Int
deriving DecidableEq

/-- The primary key of the transfers table as declared in src/schema.rs
line 11: (chain_id, tx_hash, log_index). -/
def transferKey (r : TransferRow) : Int × String × Int :=
  (r.chain_id, r.tx_hash, r.log_index)

/-- Whether a table already holds a row with the given natural key. -/
def hasKey (t : List TransferRow) (k : Int × String × Int) : Bool :=
  t.any (fun r => decide (transferKey r = k))

/-- Modelled from the spec: the persistence step for one decoded event
is absent from src (event_loop is a stub); per the spec, "duplicate
natural keys from prior partial runs are silently absorbed (upsert or
insert-ignore semantics)" against the unique key (chain_id, tx_hash,
log_index) declared by src/schema.rs — an insert that is ignored when
the key is already present. -/
def insert_or_ignore (t : List TransferRow) (r : TransferRow) : List TransferRow :=
  if hasKey t (transferKey r) then t else t ++ [r]

/-- Modelled from the spec: persisting a decoded batch "as a single
logical operation" is absent from src; modelled as inserting each row in
order with insert-ignore semantics. -/
def store_batch (t : List TransferRow) (b : List TransferRow) : List TransferRow :=
  b.foldl insert_or_ignore t

/-- The decode failure MalformedLogError of the spec's error taxonomy. -/
inductive DecodeError where
  | malformed
deriving DecidableEq

/-- Big-endian byte-string value: the unsigned integer a list of bytes
denotes. -/
def beNat (bytes : List Nat) : Nat :=
  bytes.foldl (fun acc b => acc * 256 + b % 256) 0

/-- Modelled from the spec: the EventDecoder (spec section 4.2) is
absent from src (only the TransferEvent type of src/types.rs exists).
Decode validates that the log carries exactly the Transfer signature
topic plus the two indexed address topics and a 32-byte data word,
decodes from/to as 20-byte addresses from topics 1 and 2 and the value
as an unsigned big-endian integer from the data, copies the envelope
fields, and otherwise fails with MalformedLogError. -/
def decode (chain_id : Nat) (l : RawLog) : Except DecodeError TransferEvent :=
  match l.topics with
  | [t0, t1, t2] =>
    if t0 = transferSigNat ∧ l.data.length = 32 then
      Except.ok
        ⟨chain_id, l.block_number, l.tx_hash, l.address,
          t1 % 2 ^ 160, t2 % 2 ^ 160, beNat l.data, l.log_index⟩
    else Except.error DecodeError.malformed
  | _ => Except.error DecodeError.malformed

/-- Modelled from the spec: the decoding stage of the sync loop (spec
section 4.5 step 4) is absent from src; per the spec, "decode each raw
log; malformed entries are skipped and counted, not fatal" — the batch
of successfully decoded events, in order. -/
def process_batch (chain_id : Nat) (batch : List RawLog) : List TransferEvent :=
  batch.filterMap (fun l => (decode chain_id l).toOption)

/-- A well-formed Transfer log: three topics and a 32-byte data word. -/
def goodLog : RawLog :=
  ⟨77, [transferSigNat, 10, 11], List.replicate 32 0, 150, 900, 3⟩

/-- A malformed Transfer log with only two topics (the to address is
missing). -/
def badLog : RawLog :=
  ⟨77, [transferSigNat, 10], List.replicate 32 0, 151, 901, 0⟩

/-- Modelled from the spec: serialization of a decoded TransferEvent
into a transfers row is absent from src; per the schema of
src/schema.rs and the spec's durable schema (section 6), chain_id is
stored in the Integer column (the same i32 narrowing the sync table
uses), block_number and log_index in BigInt columns, and the hash,
address and value fields as Text — the value "as decimal-string to
preserve arbitrary precision", and the other Text columns via the same
injective decimal rendering. -/
def eventToRow (e : TransferEvent) : TransferRow :=
  ⟨u64AsI32 e.chain_id, (e.block_number : Int), Nat.repr e.tx_hash,
    Nat.repr e.token_address, Nat.repr e.from_addr, Nat.repr e.to_addr,
    Nat.repr e.value, (e.log_index : Int)⟩

/-- Modelled from the spec: the decode-then-persist stage of one loop
iteration (spec section 4.5 steps 4-5) is absent from src; the batch's
successfully decoded events are serialized and stored with
insert-ignore semantics, malformed logs having been skipped by
process_batch. -/
def store_decoded (t : List TransferRow) (chain_id : Nat) (batch : List RawLog) :
    List TransferRow :=
  store_batch t ((process_batch chain_id batch).map eventToRow)

/-- A provider whose endpoint reports chain id 11155111 and latest block
256 (so that with the spec's default confirmation lag of 6 the safe tip
is 250). -/
def tipProvider : ProviderState :=
  ⟨0, Except.ok 11155111, Except.ok 256⟩

/-- A configuration expecting chain id 1. -/
def cfgA : Config :=
  ⟨"http://localhost:8545", 0, "indexer.db", 1⟩

/-- A provider whose endpoint reports chain id 2 (mismatching cfgA). -/
def provMismatch : ProviderState :=
  ⟨0, Except.ok 2, Except.ok 0⟩

/-- A provider whose endpoint reports chain id 1 (matching cfgA). -/
def provMatch : ProviderState :=
  ⟨0, Except.ok 1, Except.ok 0⟩

/-- Claim C1 (code-bug evaluation): seeding chain 1 with 500 and then
with 100 on an initially empty sync table leaves the stored checkpoint
at 99 (= 100 - 1), not at the higher previous value 499 (= 500 - 1), and
both calls return true — start_from performs an unconditional upsert and
always returns Ok(true), contradicting its own comment "Returns true if
the block number was updated, false if it was already higher" and the
claimed seed-if-absent-or-lower behaviour. -/
theorem c1_start_from_overwrites_lower_seed :
    (start_from emptySync 1 500).1 (u64AsI32 1) = some 499 ∧
    (start_from (start_from emptySync 1 500).1 1 100).1 (u64AsI32 1) = some 99 ∧
    (start_from (start_from emptySync 1 500).1 1 100).2 = true ∧
    (start_from emptySync 1 500).2 = true := by
  decide

/-- Claim C2 (code-bug evaluation): the checkpoint is not monotonically
non-decreasing under the program's sync-table operations — start_from on
chain 7 replaces the stored value 499 with the strictly smaller 99
(event_loop, the only other sync-table operation, is a stub that never
writes). -/
theorem c2_checkpoint_can_decrease :
    (start_from emptySync 7 500).1 (u64AsI32 7) = some 499 ∧
    (start_from (start_from emptySync 7 500).1 7 100).1 (u64AsI32 7) = some 99 ∧
    (99 : Int) < 499 := by
  decide

/-- Claim C3 (code-bug evaluation): with the stored checkpoint at 99 for
chain 1 and a provider whose safe tip is 250, event_loop returns
Ok(()) immediately with the sync table unchanged — it never computes a
window, never processes [100, 199] or [200, 250], and never advances the
checkpoint to 250, because its body is a stub of TODO comments. -/
theorem c3_event_loop_is_a_stub :
    (event_loop (syncUpsert emptySync 1 99) 1 tipProvider 100).1 =
      syncUpsert emptySync 1 99 ∧
    (event_loop (syncUpsert emptySync 1 99) 1 tipProvider 100).2 = Except.ok () :=
  ⟨rfl, rfl⟩

/-- Claim C9: for every start value representable in i64 (start < 2^63),
start_from stores start - 1 — not start — as the chain's block_number,
and returns true; in particular seeding with start = 0 stores -1, which
the signed BigInt column of src/schema.rs can represent. -/
theorem c9_start_from_stores_start_pred (t : SyncTable) (cid start : Nat)
    (h : start < 2 ^ 63) :
    (start_from t cid start).1 (u64AsI32 cid) = some ((start : Int) - 1) ∧
    (start_from t cid start).2 = true := by
  have h64 : start % 2 ^ 64 = start := Nat.mod_eq_of_lt (by omega)
  refine ⟨?_, rfl⟩
  simp only [start_from, syncUpsert, u64AsI64, i64Wrap, h64, if_true]
  rw [if_pos h]
  congr 1
  omega

/-- Witness for C9: seeding chain 1 with the default starting block 0 on
an empty table stores -1. -/
theorem c9_seed_zero_witness :
    (start_from emptySync 1 0).1 (u64AsI32 1) = some (((0 : Nat) : Int) - 1) ∧
    (start_from emptySync 1 0).2 = true :=
  c9_start_from_stores_start_pred emptySync 1 0 (by decide)

/-- Claim C10: start_from narrows the u64 chain id to i32 with a
wrapping cast — for every chain id at least 2^31 the stored chain_id
column differs from the configured value, and any two chain ids
congruent modulo 2^32 write to the same sync row. -/
theorem c10_chain_id_wrapping_cast :
    (∀ c : Nat, 2 ^ 31 ≤ c → u64AsI32 c ≠ (c : Int)) ∧
    (∀ c1 c2 : Nat, c1 % 2 ^ 32 = c2 % 2 ^ 32 →
      ∀ (t : SyncTable) (s : Nat), (start_from t c1 s).1 = (start_from t c2 s).1) := by
  constructor
  · intro c hc
    unfold u64AsI32
    split <;> omega
  · intro c1 c2 h t s
    have hk : u64AsI32 c1 = u64AsI32 c2 := by unfold u64AsI32; rw [h]
    simp [start_from, hk]

/-- Witness for C10: chain id 2^31 is stored as a different value, and
chain ids 5 and 5 + 2^32 write to the same sync row. -/
theorem c10_wrapping_witness :
    u64AsI32 (2 ^ 31) ≠ ((2 ^ 31 : Nat) : Int) ∧
    (start_from emptySync 5 7).1 = (start_from emptySync (5 + 2 ^ 32) 7).1 :=
  ⟨c10_chain_id_wrapping_cast.1 (2 ^ 31) (le_refl _),
   c10_chain_id_wrapping_cast.2 5 (5 + 2 ^ 32) (by decide) emptySync 7⟩

/-- Claim C4: run queries the provider's chain id exactly once; when the
response differs from the configured chain id it returns the mismatch
error with the database untouched (no seeding, no event loop), and when
it matches, startup proceeds — the checkpoint is seeded by start_from
and the (stub) event loop runs to completion. -/
theorem c4_run_validates_chain_id (cfg : Config) (p : ProviderState) (conn : SyncTable)
    (rpc : Nat) (h : p.chainIdResult = Except.ok rpc) :
    (run cfg p conn).1.chainIdCalls = p.chainIdCalls + 1 ∧
    (rpc ≠ cfg.chain_id →
      (run cfg p conn).2 =
        (conn, Except.error (RunError.chainIdMismatch rpc cfg.chain_id))) ∧
    (rpc = cfg.chain_id →
      (run cfg p conn).2 =
        ((start_from conn cfg.chain_id cfg.start_block).1, Except.ok ())) := by
  by_cases hc : rpc = cfg.chain_id <;>
    simp [run, provider_chain_id, event_loop, h, hc]

/-- Witness for C4: with a provider reporting chain id 2 against a
configuration expecting 1, run makes exactly one chain-id call and
aborts with the mismatch error, leaving the empty sync table unseeded;
with a provider reporting 1 it proceeds to seed the checkpoint. -/
theorem c4_mismatch_witness :
    (run cfgA provMismatch emptySync).1.chainIdCalls = 1 ∧
    (run cfgA provMismatch emptySync).2 =
      (emptySync, Except.error (RunError.chainIdMismatch 2 1)) ∧
    (run cfgA provMatch emptySync).2 =
      ((start_from emptySync cfgA.chain_id cfgA.start_block).1, Except.ok ()) :=
  ⟨(c4_run_validates_chain_id cfgA provMismatch emptySync 2 rfl).1,
   (c4_run_validates_chain_id cfgA provMismatch emptySync 2 rfl).2.1 (by decide),
   (c4_run_validates_chain_id cfgA provMatch emptySync 1 rfl).2.2 rfl⟩

/-- Inserting a row preserves every key already present. -/
lemma hasKey_insert_or_ignore (t : List TransferRow) (r : TransferRow)
    (k : Int × String × Int) (h : hasKey t k = true) :
    hasKey (insert_or_ignore t r) k = true := by
  unfold insert_or_ignore
  split
  · exact h
  · simp only [hasKey, List.any_append] at *
    simp [h]

/-- After inserting a row, its key is present. -/
lemma hasKey_insert_self (t : List TransferRow) (r : TransferRow) :
    hasKey (insert_or_ignore t r) (transferKey r) = true := by
  unfold insert_or_ignore
  split
  · assumption
  · simp [hasKey, List.any_append]

/-- Storing a batch preserves every key already present. -/
lemma hasKey_store_batch (b : List TransferRow) (t : List TransferRow)
    (k : Int × String × Int) (h : hasKey t k = true) :
    hasKey (store_batch t b) k = true := by
  induction b generalizing t with
  | nil => exact h
  | cons r b ih => exact ih _ (hasKey_insert_or_ignore t r k h)

/-- Every row of a stored batch has its key present afterwards. -/
lemma hasKey_store_batch_of_mem (b : List TransferRow) (t : List TransferRow)
    (r : TransferRow) (h : r ∈ b) :
    hasKey (store_batch t b) (transferKey r) = true := by
  induction b generalizing t with
  | nil => cases h
  | cons x b ih =>
    cases h with
    | head => exact hasKey_store_batch b _ _ (hasKey_insert_self t r)
    | tail _ hm => exact ih _ hm

/-- Inserting a row whose key is already present changes nothing. -/
lemma insert_or_ignore_of_hasKey (t : List TransferRow) (r : TransferRow)
    (h : hasKey t (transferKey r) = true) : insert_or_ignore t r = t := by
  unfold insert_or_ignore
  simp [h]

/-- Storing a batch all of whose keys are already present changes
nothing. -/
lemma store_batch_of_all_present (b t : List TransferRow)
    (h : ∀ r ∈ b, hasKey t (transferKey r) = true) : store_batch t b = t := by
  induction b with
  | nil => rfl
  | cons x b ih =>
    show store_batch (insert_or_ignore t x) b = t
    rw [insert_or_ignore_of_hasKey t x (h x (List.mem_cons_self x b))]
    exact ih (fun r hr => h r (List.mem_cons_of_mem x hr))

/-- Claim C5: persisting transfer events is idempotent under the natural
key (chain_id, tx_hash, log_index) of src/schema.rs — storing the same
batch twice yields exactly the row set of storing it once. -/
theorem c5_store_batch_idempotent (t b : List TransferRow) :
    store_batch (store_batch t b) b = store_batch t b :=
  store_batch_of_all_present b (store_batch t b)
    (fun r hr => hasKey_store_batch_of_mem b t r hr)

/-- Claim C6: the filter that AlloyProvider::logs queries with selects
exactly the logs whose topic0 is the Transfer event signature hash,
whose emitting address is the configured token address, and whose block
number lies inclusively between the requested bounds. -/
theorem c6_logs_filter_selects_transfers (token_address : Nat)
    (start_block end_block : Nat) (l : RawLog) :
    ∃ f, logs_filter token_address start_block end_block = Except.ok f ∧
      (filterMatches f l = true ↔
        l.topics.head? = some transferSigNat ∧ l.address = token_address ∧
          start_block ≤ l.block_number ∧ l.block_number ≤ end_block) := by
  have hp : parseHex32 TRANSFER_EVENT_SIGNATURE = some transferSigNat := by decide
  refine ⟨⟨start_block, end_block, token_address, transferSigNat⟩, ?_, ?_⟩
  · simp [logs_filter, hp]
  · simp [filterMatches, and_assoc]

/-- A log whose topic count is not three, whose first topic is not the
Transfer signature, or whose data is not a 32-byte word decodes to
MalformedLogError. -/
lemma decode_malformed (cid : Nat) (l : RawLog)
    (h : l.topics.length ≠ 3 ∨ l.topics.head? ≠ some transferSigNat ∨
      l.data.length ≠ 32) :
    decode cid l = Except.error DecodeError.malformed := by
  unfold decode
  generalize hl : l.topics = ts at h ⊢
  rcases ts with _ | ⟨a, _ | ⟨b, _ | ⟨c, _ | ⟨d, tl⟩⟩⟩⟩
  · rfl
  · rfl
  · rfl
  · rcases h with h | h | h
    · exact absurd rfl h
    · have ha : a ≠ transferSigNat := by simpa using h
      simp [ha]
    · simp [h]
  · rfl

/-- Claim C7 counterexample: with CHAIN_ID absent from the environment
(and everything else absent too), Config::from_env succeeds — it
defaults the chain id to 11155111 instead of failing, and it reads no
token contract address at all — refuting the claim that the expected
chain id and token address are required. -/
theorem c7_counterexample_empty_env :
    emptyEnv ("CHAIN_ID") = none ∧
    from_env emptyEnv =
      Except.ok ⟨"https://eth.llamarpc.com", 0, "indexer.db", 11155111⟩ :=
  ⟨rfl, rfl⟩

/-- Claim C7 (amended): from_env treats every variable as optional — the
starting block defaults to 0 and the RPC URL to the documented
https://eth.llamarpc.com, but the expected chain id also has a default
(11155111) rather than being required, and the token contract address is
not read by from_env at all (Config has no such field). -/
theorem c7_from_env_defaults (env : String → Option String)
    (hs : env ("START_BLOCK") = none) (hc : env ("CHAIN_ID") = none) :
    from_env env =
      Except.ok
        ⟨(env ("RPC_URL")).getD ("https://eth.llamarpc.com"), 0,
          (env ("DB_PATH")).getD ("indexer.db"), 11155111⟩ := by
  unfold from_env
  rw [hs, hc]
  rfl

/-- Witness for C7 (amended): an environment setting only RPC_URL loads
with the defaults for everything else. -/
theorem c7_defaults_witness :
    from_env envRpcOnly =
      Except.ok ⟨"http://localhost:8545", 0, "indexer.db", 11155111⟩ :=
  (c7_from_env_defaults envRpcOnly (by decide) (by decide)).trans rfl

/-- Claim C8: every raw log whose topic count, data length, or
signature does not match the ERC-20 Transfer expectations decodes to
MalformedLogError, and the failure is non-fatal for the batch — the
remaining logs of the same fetched batch are decoded and stored exactly
as they would be with the malformed log absent, for every prior table
state. -/
theorem c8_malformed_log_is_skipped (cid : Nat) (l1 l2 : List RawLog) (bad : RawLog)
    (h : bad.topics.length ≠ 3 ∨ bad.topics.head? ≠ some transferSigNat ∨
      bad.data.length ≠ 32) :
    decode cid bad = Except.error DecodeError.malformed ∧
    process_batch cid (l1 ++ bad :: l2) = process_batch cid (l1 ++ l2) ∧
    ∀ t : List TransferRow,
      store_decoded t cid (l1 ++ bad :: l2) = store_decoded t cid (l1 ++ l2) := by
  have hd : decode cid bad = Except.error DecodeError.malformed :=
    decode_malformed cid bad h
  have hp : process_batch cid (l1 ++ bad :: l2) = process_batch cid (l1 ++ l2) := by
    simp [process_batch, List.filterMap_append, List.filterMap_cons, hd, Except.toOption]
  exact ⟨hd, hp, fun t => by rw [store_decoded, hp, store_decoded]⟩

/-- Witness for C8: a two-topic log (the to address is missing) between
two well-formed logs decodes to MalformedLogError while the batch's
remaining logs are decoded and stored as if it were absent. -/
theorem c8_two_topic_witness :
    decode 1 badLog = Except.error DecodeError.malformed ∧
    store_decoded [] 1 ([goodLog] ++ badLog :: [goodLog]) =
      store_decoded [] 1 ([goodLog] ++ [goodLog]) :=
  ⟨(c8_malformed_log_is_skipped 1 [goodLog] [goodLog] badLog (Or.inl (by decide))).1,
   (c8_malformed_log_is_skipped 1 [goodLog] [goodLog] badLog (Or.inl (by decide))).2.2 []⟩

end RustIndexer
